import Mathlib

/-!
Shallow embedding of the `code_crafters_git` repository (src/lib.rs and
src/main.rs) and proofs about its `init` subsystem and CLI dispatch.

The filesystem is modelled as an association list from paths (lists of
components, as produced by `Path::join`) to entries (directory or file with
content).  Real filesystem calls can fail for external reasons (disk full,
permissions, ...); this is modelled by a fault oracle `faults : Nat → Option
String` giving, for the n-th fallible OS call an operation performs, the OS
error message of an injected failure (`none` means the call behaves according
to its inherent semantics).
-/

namespace GitInit

/-- A filesystem entry: a directory, or a file with its string content. -/
inductive Entry : Type
  | dir : Entry
  | file : String → Entry
deriving DecidableEq, Repr

/-- A filesystem state: an association list from paths (component lists) to
entries.  Later insertions are consed at the front, so `lookupEntry` sees the
most recent binding first (overwrite semantics for `fs::write`). -/
structure FS : Type where
  entries : List (List String × Entry)
deriving DecidableEq, Repr

/-- First binding for a path in an association list, if any. -/
def lookupEntry : List (List String × Entry) → List String → Option Entry
  | [], _ => none
  | (q, e) :: rest, p => if q = p then some e else lookupEntry rest p

/-- Entry currently stored at a path. -/
def FS.lookup (fs : FS) (p : List String) : Option Entry :=
  lookupEntry fs.entries p

/-- Model of Rust `Path::exists`: does any entry (of any kind) exist at `p`? -/
def FS.existsPath (fs : FS) (p : List String) : Bool :=
  (fs.lookup p).isSome

/-- Add (or shadow) a binding at path `p`. -/
def FS.insert (fs : FS) (p : List String) (e : Entry) : FS :=
  ⟨(p, e) :: fs.entries⟩

/-- Does the parent directory of `p` exist as a directory?  A path of a single
component is resolved against the ambient working directory, which is assumed
present. -/
def parentOk (fs : FS) (p : List String) : Bool :=
  p.length ≤ 1 || (fs.lookup p.dropLast == some Entry.dir)

/-- Model of `std::fs::create_dir` with an injected-fault slot.  Inherent
semantics: fails if the path already exists or the parent directory is
missing; otherwise records a directory at `p`. -/
def osCreateDir (fault : Option String) (fs : FS) (p : List String) :
    Except String FS :=
  match fault with
  | some msg => Except.error msg
  | none =>
    if fs.existsPath p then Except.error "File exists (os error 17)"
    else if parentOk fs p then Except.ok (fs.insert p Entry.dir)
    else Except.error "No such file or directory (os error 2)"

/-- Model of `std::fs::write` with an injected-fault slot.  Inherent
semantics: fails if `p` is an existing directory or the parent directory is
missing; otherwise creates/overwrites the file. -/
def osWrite (fault : Option String) (fs : FS) (p : List String)
    (content : String) : Except String FS :=
  match fault with
  | some msg => Except.error msg
  | none =>
    if fs.lookup p == some Entry.dir then
      Except.error "Is a directory (os error 21)"
    else if parentOk fs p then Except.ok (fs.insert p (Entry.file content))
    else Except.error "No such file or directory (os error 2)"

/-- Result of a core-library call: the returned `Result<(), String>`, the
filesystem state after the call, and the lines printed to stdout. -/
structure CoreResult : Type where
  res : Except String Unit
  fs : FS
  out : List String
deriving Repr

/-- Embedding of `create_dir` from src/lib.rs: wraps `fs::create_dir`,
mapping an error to `"Error creating {path} directory: {e}"`. -/
def create_dir (fault : Option String) (fs : FS) (path : String) : CoreResult :=
  match osCreateDir fault fs [path] with
  | Except.error e =>
      ⟨Except.error ("Error creating " ++ path ++ " directory: " ++ e), fs, []⟩
  | Except.ok fs1 => ⟨Except.ok (), fs1, []⟩

/-- Embedding of `init_git_repo_at` from src/lib.rs.  `faults n` is the
injected fault for the n-th fallible OS call (0: create `.git`, 1: create
`.git/objects`, 2: create `.git/refs`, 3: write `.git/HEAD`). -/
def init_git_repo_at (faults : Nat → Option String) (fs : FS) (path : String) :
    CoreResult :=
  let base_path : List String := [path]
  let git_path := base_path ++ [".git"]
  if fs.existsPath git_path then
    ⟨Except.error "Error: .git directory already exists", fs, []⟩
  else
    match osCreateDir (faults 0) fs git_path with
    | Except.error e =>
        ⟨Except.error ("Error creating .git directory: " ++ e), fs, []⟩
    | Except.ok fs1 =>
      match osCreateDir (faults 1) fs1 (git_path ++ ["objects"]) with
      | Except.error e =>
          ⟨Except.error ("Error creating .git/objects directory: " ++ e), fs1, []⟩
      | Except.ok fs2 =>
        match osCreateDir (faults 2) fs2 (git_path ++ ["refs"]) with
        | Except.error e =>
            ⟨Except.error ("Error creating .git/refs directory: " ++ e), fs2, []⟩
        | Except.ok fs3 =>
          match osWrite (faults 3) fs3 (git_path ++ ["HEAD"])
              "ref: refs/heads/master\n" with
          | Except.error e =>
              ⟨Except.error ("Error writing .git/HEAD file: " ++ e), fs3, []⟩
          | Except.ok fs4 =>
              ⟨Except.ok (), fs4, ["Initialized git repository"]⟩

/-- Embedding of `init_git_repo` from src/lib.rs: initializes at the current
working directory `"."`. -/
def init_git_repo (faults : Nat → Option String) (fs : FS) : CoreResult :=
  init_git_repo_at faults fs "."

/-- Result of a CLI invocation: final filesystem state, stdout lines, stderr
lines, and the process exit code (`0` for normal completion; `process::exit(1)`
is modelled as exit code `1`). -/
structure RunResult : Type where
  fs : FS
  out : List String
  err : List String
  exitCode : Nat
deriving Repr

/-- Embedding of `cat_file_cmd` from src/main.rs: stub that echoes the object
hash, or errors out when no hash is given. -/
def cat_file_cmd (fs : FS) (args : List String) : RunResult :=
  if args.length < 3 then
    ⟨fs, [],
      ["Error: No object hash provided. Usage: " ++ args.getD 0 ""
        ++ " cat-file <object_hash>"], 1⟩
  else
    ⟨fs, ["Object hash: " ++ args.getD 2 ""], [], 0⟩

/-- Embedding of `add_cmd` from src/main.rs: stub that echoes the file name,
or errors out when no file is given. -/
def add_cmd (fs : FS) (args : List String) : RunResult :=
  if args.length < 3 then
    ⟨fs, [],
      ["Error: No file provided. Usage: " ++ args.getD 0 "" ++ " add <file>"], 1⟩
  else
    ⟨fs, ["Added file: " ++ args.getD 2 ""], [], 0⟩

/-- Embedding of `main` from src/main.rs: argument count check, then dispatch
on the command name. -/
def main (faults : Nat → Option String) (fs : FS) (args : List String) :
    RunResult :=
  if args.length < 2 then
    ⟨fs, [],
      ["Error: No command provided. Usage: " ++ args.getD 0 "" ++ " <command>"],
      1⟩
  else
    let command := args.getD 1 ""
    if command = "init" then
      let r := init_git_repo faults fs
      match r.res with
      | Except.error e => ⟨r.fs, r.out, [e], 1⟩
      | Except.ok _ => ⟨r.fs, r.out, [], 0⟩
    else if command = "cat-file" then cat_file_cmd fs args
    else if command = "add" then add_cmd fs args
    else if command = "commit" then
      ⟨fs,
        ["Commit message: "
          ++ (if 2 < args.length then args.getD 2 "" else "Unnamed commit")],
        [], 0⟩
    else if command = "status" then
      ⟨fs, ["Repository status: Clean"], [], 0⟩
    else
      ⟨fs, [], ["Error: Unknown command: " ++ command], 1⟩

/-! Helper lemmas about the filesystem model. -/

/-- Looking up the path just inserted returns the inserted entry. -/
theorem lookup_insert_self (fs : FS) (p : List String) (e : Entry) :
    (fs.insert p e).lookup p = some e := by
  simp [FS.insert, FS.lookup, lookupEntry]

/-- Looking up a different path is unaffected by an insertion. -/
theorem lookup_insert_ne (fs : FS) (p q : List String) (e : Entry)
    (h : p ≠ q) : (fs.insert p e).lookup q = fs.lookup q := by
  simp [FS.insert, FS.lookup, lookupEntry, h]

/-- Existence of a different path is unaffected by an insertion. -/
theorem existsPath_insert_ne (fs : FS) (p q : List String) (e : Entry)
    (h : p ≠ q) : (fs.insert p e).existsPath q = fs.existsPath q := by
  simp [FS.existsPath, lookup_insert_ne fs p q e h]

/-- A successful `osCreateDir` had no injected fault and simply inserted a
directory at the requested path. -/
theorem osCreateDir_ok (fault : Option String) (fs fs' : FS)
    (p : List String) (h : osCreateDir fault fs p = Except.ok fs') :
    fault = none ∧ fs' = fs.insert p Entry.dir := by
  cases fault with
  | some msg => simp [osCreateDir] at h
  | none =>
    refine ⟨rfl, ?_⟩
    simp only [osCreateDir] at h
    split at h
    · exact absurd h (by simp)
    · split at h
      · exact (Except.ok.injEq _ _ ▸ h).symm ▸ rfl
      · exact absurd h (by simp)

/-- A successful `osWrite` had no injected fault and simply inserted the file
at the requested path. -/
theorem osWrite_ok (fault : Option String) (fs fs' : FS)
    (p : List String) (c : String)
    (h : osWrite fault fs p c = Except.ok fs') :
    fault = none ∧ fs' = fs.insert p (Entry.file c) := by
  cases fault with
  | some msg => simp [osWrite] at h
  | none =>
    refine ⟨rfl, ?_⟩
    simp only [osWrite] at h
    split at h
    · exact absurd h (by simp)
    · split at h
      · exact (Except.ok.injEq _ _ ▸ h).symm ▸ rfl
      · exact absurd h (by simp)

/-- A path that does not exist has no entry. -/
theorem lookup_none (fs : FS) (p : List String)
    (h : fs.existsPath p = false) : lookupEntry fs.entries p = none := by
  cases hq : lookupEntry fs.entries p with
  | none => rfl
  | some e =>
    have hs : (lookupEntry fs.entries p).isSome = false := h
    rw [hq] at hs
    simp at hs

/-! Claim theorems. -/

/-- C1: when the `.git` entry already exists at the repository path,
`init_git_repo_at` returns the error "Error: .git directory already exists",
leaves the filesystem unchanged and prints nothing. -/
theorem claim1_init_already_initialized (faults : Nat → Option String)
    (fs : FS) (path : String)
    (h : fs.existsPath [path, ".git"] = true) :
    init_git_repo_at faults fs path =
      ⟨Except.error "Error: .git directory already exists", fs, []⟩ := by
  simp [init_git_repo_at, h]

/-- Witness for C1 at a filesystem that already has a `.git` directory. -/
theorem claim1_witness :
    (FS.mk [(["r", ".git"], Entry.dir)]).existsPath ["r", ".git"] = true ∧
      init_git_repo_at (fun _ => none) ⟨[(["r", ".git"], Entry.dir)]⟩ "r" =
        ⟨Except.error "Error: .git directory already exists",
          ⟨[(["r", ".git"], Entry.dir)]⟩, []⟩ :=
  ⟨by decide,
    claim1_init_already_initialized (fun _ => none)
      ⟨[(["r", ".git"], Entry.dir)]⟩ "r" (by decide)⟩

/-- C4: `init_git_repo` is exactly `init_git_repo_at` applied to the current
working directory `"."`: same result value, same filesystem effect, same
output, for every fault oracle and filesystem state. -/
theorem claim4_init_uses_cwd (faults : Nat → Option String) (fs : FS) :
    init_git_repo faults fs = init_git_repo_at faults fs "." := rfl

/-- C9: the already-initialized check tests only existence, not kind: when
`.git` exists as a regular file, init still fails with the "already exists"
error and attempts no creation. -/
theorem claim9_exists_check_ignores_kind (faults : Nat → Option String)
    (fs : FS) (path : String) (c : String)
    (h : fs.lookup [path, ".git"] = some (Entry.file c)) :
    init_git_repo_at faults fs path =
      ⟨Except.error "Error: .git directory already exists", fs, []⟩ := by
  have hex : fs.existsPath [path, ".git"] = true := by
    simp [FS.existsPath, h]
  simp [init_git_repo_at, hex]

/-- Witness for C9 at a filesystem whose `.git` entry is a regular file. -/
theorem claim9_witness :
    (FS.mk [(["r", ".git"], Entry.file "junk")]).lookup ["r", ".git"] =
        some (Entry.file "junk") ∧
      init_git_repo_at (fun _ => none) ⟨[(["r", ".git"], Entry.file "junk")]⟩ "r" =
        ⟨Except.error "Error: .git directory already exists",
          ⟨[(["r", ".git"], Entry.file "junk")]⟩, []⟩ :=
  ⟨by decide,
    claim9_exists_check_ignores_kind (fun _ => none)
      ⟨[(["r", ".git"], Entry.file "junk")]⟩ "r" "junk" (by decide)⟩

/-- Fault oracle that fails the second OS call (creation of `.git/objects`)
with a disk-full error and lets every other call proceed. -/
def faultsObjectsFull : Nat → Option String :=
  fun n => if n = 1 then some "No space left on device (os error 28)" else none

/-- Filesystem containing just the repository root directory `r`. -/
def fsRootOnly : FS := ⟨[(["r"], Entry.dir)]⟩

/-- C10: init is not atomic on I/O failure: starting from a filesystem
without `.git`, when creating `.git` succeeds but creating `.git/objects`
fails, init returns an error while the partially created `.git` directory
remains on disk. -/
theorem claim10_init_not_atomic :
    fsRootOnly.existsPath ["r", ".git"] = false ∧
      (init_git_repo_at faultsObjectsFull fsRootOnly "r").res =
        Except.error ("Error creating .git/objects directory: "
          ++ "No space left on device (os error 28)") ∧
      (init_git_repo_at faultsObjectsFull fsRootOnly "r").fs.existsPath
          ["r", ".git"] = true :=
  ⟨rfl, rfl, rfl⟩

/-- C2: when `.git` does not yet exist and all filesystem operations succeed
(no injected fault, the repository root is a directory, and none of the paths
to be created is already taken), init returns Ok and creates exactly the
skeleton: directories `.git`, `.git/objects`, `.git/refs` and the file
`.git/HEAD`, nothing else. -/
theorem claim2_init_creates_skeleton (faults : Nat → Option String)
    (fs : FS) (path : String)
    (hgit : fs.existsPath [path, ".git"] = false)
    (hbase : fs.lookup [path] = some Entry.dir)
    (hobj : fs.existsPath [path, ".git", "objects"] = false)
    (hrefs : fs.existsPath [path, ".git", "refs"] = false)
    (hhead : fs.existsPath [path, ".git", "HEAD"] = false)
    (hf : ∀ n, faults n = none) :
    init_git_repo_at faults fs path =
      ⟨Except.ok (),
        ⟨([path, ".git", "HEAD"], Entry.file "ref: refs/heads/master\n")
          :: ([path, ".git", "refs"], Entry.dir)
          :: ([path, ".git", "objects"], Entry.dir)
          :: ([path, ".git"], Entry.dir)
          :: fs.entries⟩,
        ["Initialized git repository"]⟩ := by
  have hgit' := lookup_none fs [path, ".git"] hgit
  have hobj' := lookup_none fs [path, ".git", "objects"] hobj
  have hrefs' := lookup_none fs [path, ".git", "refs"] hrefs
  have hhead' := lookup_none fs [path, ".git", "HEAD"] hhead
  have hbase' : lookupEntry fs.entries [path] = some Entry.dir := hbase
  simp [init_git_repo_at, osCreateDir, osWrite, parentOk, FS.existsPath,
    FS.insert, FS.lookup, lookupEntry, List.dropLast, beq_iff_eq, hf,
    hgit', hobj', hrefs', hhead', hbase']

/-- Witness for C2 at a filesystem holding only the root directory. -/
theorem claim2_witness :
    fsRootOnly.existsPath ["r", ".git"] = false ∧
      fsRootOnly.lookup ["r"] = some Entry.dir ∧
      init_git_repo_at (fun _ => none) fsRootOnly "r" =
        ⟨Except.ok (),
          ⟨([ "r", ".git", "HEAD"], Entry.file "ref: refs/heads/master\n")
            :: ([ "r", ".git", "refs"], Entry.dir)
            :: ([ "r", ".git", "objects"], Entry.dir)
            :: ([ "r", ".git"], Entry.dir)
            :: fsRootOnly.entries⟩,
          ["Initialized git repository"]⟩ :=
  ⟨by decide, by decide,
    claim2_init_creates_skeleton (fun _ => none) fsRootOnly "r"
      (by decide) (by decide) (by decide) (by decide) (by decide)
      (fun _ => rfl)⟩

/-- C3: every successful run of `init_git_repo_at` leaves `.git/HEAD` holding
exactly the single line `ref: refs/heads/master\n`. -/
theorem claim3_head_content (faults : Nat → Option String) (fs : FS)
    (path : String) (r : CoreResult)
    (hr : init_git_repo_at faults fs path = r)
    (hok : r.res = Except.ok ()) :
    r.fs.lookup [path, ".git", "HEAD"] =
      some (Entry.file "ref: refs/heads/master\n") := by
  simp only [init_git_repo_at] at hr
  split at hr
  · subst hr; simp at hok
  · split at hr
    · subst hr; simp at hok
    · rename_i fs1 heq1
      split at hr
      · subst hr; simp at hok
      · rename_i fs2 heq2
        split at hr
        · subst hr; simp at hok
        · rename_i fs3 heq3
          split at hr
          · subst hr; simp at hok
          · rename_i fs4 heq4
            subst hr
            obtain ⟨-, h4⟩ := osWrite_ok _ _ _ _ _ heq4
            subst h4
            simp [lookup_insert_self]

/-- Witness for C3: a concrete successful init whose HEAD file holds the
pinned branch line. -/
theorem claim3_witness :
    (init_git_repo_at (fun _ => none) fsRootOnly "r").res = Except.ok () ∧
      (init_git_repo_at (fun _ => none) fsRootOnly "r").fs.lookup
          ["r", ".git", "HEAD"] =
        some (Entry.file "ref: refs/heads/master\n") :=
  ⟨rfl, claim3_head_content (fun _ => none) fsRootOnly "r" _ rfl rfl⟩

/-- C5: core-library errors are returned as values and never swallowed: a
failing `fs::create_dir` inside `create_dir` yields an error result carrying
the cause, and a successful `init_git_repo_at` implies no underlying OS call
failed (no fault was injected at any of the four call sites).  The core result
types (`CoreResult`) carry no exit code: process termination exists only in
the CLI model. -/
theorem claim5_errors_are_values :
    (∀ (fault : Option String) (fs : FS) (path e : String),
        osCreateDir fault fs [path] = Except.error e →
        (create_dir fault fs path).res =
          Except.error ("Error creating " ++ path ++ " directory: " ++ e)) ∧
    (∀ (faults : Nat → Option String) (fs : FS) (path : String)
        (r : CoreResult),
        init_git_repo_at faults fs path = r → r.res = Except.ok () →
        ∀ n, n < 4 → faults n = none) := by
  constructor
  · intro fault fs path e h
    simp [create_dir, h]
  · intro faults fs path r hr hok n hn
    simp only [init_git_repo_at] at hr
    split at hr
    · subst hr; simp at hok
    · split at hr
      · subst hr; simp at hok
      · rename_i fs1 heq1
        split at hr
        · subst hr; simp at hok
        · rename_i fs2 heq2
          split at hr
          · subst hr; simp at hok
          · rename_i fs3 heq3
            split at hr
            · subst hr; simp at hok
            · rename_i fs4 heq4
              have h0 := (osCreateDir_ok _ _ _ _ heq1).1
              have h1 := (osCreateDir_ok _ _ _ _ heq2).1
              have h2 := (osCreateDir_ok _ _ _ _ heq3).1
              have h3 := (osWrite_ok _ _ _ _ _ heq4).1
              interval_cases n <;> assumption

/-- Witness for C5: a concrete failing `create_dir` call and a concrete
successful init. -/
theorem claim5_witness :
    (create_dir (some "boom") fsRootOnly "p").res =
        Except.error ("Error creating " ++ "p" ++ " directory: " ++ "boom") ∧
      (fun _ => (none : Option String)) 0 = none :=
  ⟨claim5_errors_are_values.1 (some "boom") fsRootOnly "p" "boom" rfl,
    claim5_errors_are_values.2 (fun _ => none) fsRootOnly "r" _ rfl rfl 0
      (by decide)⟩

/-- C6: every filesystem failure during `create_dir` or init is surfaced
immediately (no retry, the failing call is the last one executed) and the
returned error message embeds the underlying OS cause: shown for `create_dir`
with an injected fault, and for init at each of its four OS call sites — the
first fault to occur, whether while creating `.git`, `.git/objects`,
`.git/refs`, or writing `.git/HEAD`, produces the corresponding error with
the cause appended (the hypotheses of each conjunct make the earlier calls
succeed, so the quantified fault is the failure that occurs). -/
theorem claim6_failure_surfaced_with_cause :
    (∀ (fs : FS) (path msg : String),
        (create_dir (some msg) fs path).res =
            Except.error ("Error creating " ++ path ++ " directory: " ++ msg) ∧
          (create_dir (some msg) fs path).fs = fs) ∧
    (∀ (faults : Nat → Option String) (fs : FS) (path msg : String),
        fs.existsPath [path, ".git"] = false → faults 0 = some msg →
        (init_git_repo_at faults fs path).res =
            Except.error ("Error creating .git directory: " ++ msg) ∧
          (init_git_repo_at faults fs path).fs = fs) ∧
    (∀ (faults : Nat → Option String) (fs : FS) (path msg : String),
        fs.existsPath [path, ".git"] = false →
        fs.lookup [path] = some Entry.dir →
        faults 0 = none → faults 1 = some msg →
        (init_git_repo_at faults fs path).res =
          Except.error ("Error creating .git/objects directory: " ++ msg)) ∧
    (∀ (faults : Nat → Option String) (fs : FS) (path msg : String),
        fs.existsPath [path, ".git"] = false →
        fs.lookup [path] = some Entry.dir →
        fs.existsPath [path, ".git", "objects"] = false →
        faults 0 = none → faults 1 = none → faults 2 = some msg →
        (init_git_repo_at faults fs path).res =
          Except.error ("Error creating .git/refs directory: " ++ msg)) ∧
    (∀ (faults : Nat → Option String) (fs : FS) (path msg : String),
        fs.existsPath [path, ".git"] = false →
        fs.lookup [path] = some Entry.dir →
        fs.existsPath [path, ".git", "objects"] = false →
        fs.existsPath [path, ".git", "refs"] = false →
        faults 0 = none → faults 1 = none → faults 2 = none →
        faults 3 = some msg →
        (init_git_repo_at faults fs path).res =
          Except.error ("Error writing .git/HEAD file: " ++ msg)) := by
  refine ⟨?_, ?_, ?_, ?_, ?_⟩
  · intro fs path msg
    constructor <;> simp [create_dir, osCreateDir]
  · intro faults fs path msg hgit hf0
    constructor <;> simp [init_git_repo_at, osCreateDir, hgit, hf0]
  · intro faults fs path msg hgit hbase hf0 hf1
    have hgit' := lookup_none fs [path, ".git"] hgit
    have hbase' : lookupEntry fs.entries [path] = some Entry.dir := hbase
    simp [init_git_repo_at, osCreateDir, parentOk, FS.existsPath, FS.insert,
      FS.lookup, lookupEntry, List.dropLast, beq_iff_eq, hf0, hf1, hgit',
      hbase']
  · intro faults fs path msg hgit hbase hobj hf0 hf1 hf2
    have hgit' := lookup_none fs [path, ".git"] hgit
    have hobj' := lookup_none fs [path, ".git", "objects"] hobj
    have hbase' : lookupEntry fs.entries [path] = some Entry.dir := hbase
    simp [init_git_repo_at, osCreateDir, parentOk, FS.existsPath, FS.insert,
      FS.lookup, lookupEntry, List.dropLast, beq_iff_eq, hf0, hf1, hf2,
      hgit', hobj', hbase']
  · intro faults fs path msg hgit hbase hobj hrefs hf0 hf1 hf2 hf3
    have hgit' := lookup_none fs [path, ".git"] hgit
    have hobj' := lookup_none fs [path, ".git", "objects"] hobj
    have hrefs' := lookup_none fs [path, ".git", "refs"] hrefs
    have hbase' : lookupEntry fs.entries [path] = some Entry.dir := hbase
    simp [init_git_repo_at, osCreateDir, osWrite, parentOk, FS.existsPath,
      FS.insert, FS.lookup, lookupEntry, List.dropLast, beq_iff_eq, hf0,
      hf1, hf2, hf3, hgit', hobj', hrefs', hbase']

/-- Witness for C6 at disk-full failures of each of the four init OS calls
and of a direct `create_dir` call. -/
theorem claim6_witness :
    ((create_dir (some "full") fsRootOnly "p").res =
        Except.error ("Error creating " ++ "p" ++ " directory: " ++ "full") ∧
      (create_dir (some "full") fsRootOnly "p").fs = fsRootOnly) ∧
      fsRootOnly.existsPath ["r", ".git"] = false ∧
      ((init_git_repo_at (fun _ => some "full") fsRootOnly "r").res =
          Except.error ("Error creating .git directory: " ++ "full") ∧
        (init_git_repo_at (fun _ => some "full") fsRootOnly "r").fs =
          fsRootOnly) ∧
      (init_git_repo_at faultsObjectsFull fsRootOnly "r").res =
        Except.error ("Error creating .git/objects directory: "
          ++ "No space left on device (os error 28)") ∧
      (init_git_repo_at (fun n => if n = 2 then some "full" else none)
          fsRootOnly "r").res =
        Except.error ("Error creating .git/refs directory: " ++ "full") ∧
      (init_git_repo_at (fun n => if n = 3 then some "full" else none)
          fsRootOnly "r").res =
        Except.error ("Error writing .git/HEAD file: " ++ "full") :=
  ⟨claim6_failure_surfaced_with_cause.1 fsRootOnly "p" "full",
    by decide,
    claim6_failure_surfaced_with_cause.2.1 (fun _ => some "full") fsRootOnly
      "r" "full" (by decide) rfl,
    claim6_failure_surfaced_with_cause.2.2.1 faultsObjectsFull fsRootOnly
      "r" "No space left on device (os error 28)" (by decide) (by decide)
      rfl rfl,
    claim6_failure_surfaced_with_cause.2.2.2.1
      (fun n => if n = 2 then some "full" else none) fsRootOnly "r" "full"
      (by decide) (by decide) (by decide) rfl rfl rfl,
    claim6_failure_surfaced_with_cause.2.2.2.2
      (fun n => if n = 3 then some "full" else none) fsRootOnly "r" "full"
      (by decide) (by decide) (by decide) (by decide) rfl rfl rfl rfl⟩

/-- C7: every failing CLI invocation — no command, unknown command, cat-file
without an object hash, add without a file, or a failing init — writes an
error message to stderr and exits with a nonzero code. -/
theorem claim7_cli_failures_exit_nonzero (faults : Nat → Option String)
    (fs : FS) (args : List String) :
    (args.length < 2 →
      (main faults fs args).err ≠ [] ∧ (main faults fs args).exitCode ≠ 0) ∧
    (2 ≤ args.length →
      args.getD 1 "" ∉
          (["init", "cat-file", "add", "commit", "status"] : List String) →
      (main faults fs args).err ≠ [] ∧ (main faults fs args).exitCode ≠ 0) ∧
    (args.getD 1 "" = "cat-file" → 2 ≤ args.length → args.length < 3 →
      (main faults fs args).err ≠ [] ∧ (main faults fs args).exitCode ≠ 0) ∧
    (args.getD 1 "" = "add" → 2 ≤ args.length → args.length < 3 →
      (main faults fs args).err ≠ [] ∧ (main faults fs args).exitCode ≠ 0) ∧
    (args.getD 1 "" = "init" → 2 ≤ args.length →
      ∀ e, (init_git_repo faults fs).res = Except.error e →
        (main faults fs args).err = [e] ∧
          (main faults fs args).exitCode = 1) := by
  refine ⟨?_, ?_, ?_, ?_, ?_⟩
  · intro h
    simp [main, h]
  · intro h2 hmem
    simp only [List.mem_cons, List.mem_singleton, not_or,
      List.getD_eq_getElem?_getD] at hmem
    obtain ⟨n1, n2, n3, n4, n5, -⟩ := hmem
    constructor <;>
      simp [main, show ¬ args.length < 2 by omega, n1, n2, n3, n4, n5]
  · intro hcmd h2 h3
    simp only [List.getD_eq_getElem?_getD] at hcmd
    constructor <;>
      simp [main, cat_file_cmd, hcmd, show ¬ args.length < 2 by omega, h3]
  · intro hcmd h2 h3
    simp only [List.getD_eq_getElem?_getD] at hcmd
    constructor <;>
      simp [main, add_cmd, hcmd, show ¬ args.length < 2 by omega, h3]
  · intro hcmd h2 e he
    simp only [List.getD_eq_getElem?_getD] at hcmd
    constructor <;>
      simp [main, hcmd, show ¬ args.length < 2 by omega, he]

/-- Filesystem whose current working directory already holds a `.git`
directory, so `init_git_repo` fails. -/
def fsCwdWithGit : FS := ⟨[([".", ".git"], Entry.dir)]⟩

/-- Witness for C7 across the five failing invocation shapes. -/
theorem claim7_witness :
    ((main (fun _ => none) fsRootOnly ["git"]).err ≠ [] ∧
      (main (fun _ => none) fsRootOnly ["git"]).exitCode ≠ 0) ∧
    ((main (fun _ => none) fsRootOnly ["git", "frobnicate"]).err ≠ [] ∧
      (main (fun _ => none) fsRootOnly ["git", "frobnicate"]).exitCode ≠ 0) ∧
    ((main (fun _ => none) fsRootOnly ["git", "cat-file"]).err ≠ [] ∧
      (main (fun _ => none) fsRootOnly ["git", "cat-file"]).exitCode ≠ 0) ∧
    ((main (fun _ => none) fsRootOnly ["git", "add"]).err ≠ [] ∧
      (main (fun _ => none) fsRootOnly ["git", "add"]).exitCode ≠ 0) ∧
    ((main (fun _ => none) fsCwdWithGit ["git", "init"]).err =
        ["Error: .git directory already exists"] ∧
      (main (fun _ => none) fsCwdWithGit ["git", "init"]).exitCode = 1) :=
  ⟨(claim7_cli_failures_exit_nonzero (fun _ => none) fsRootOnly ["git"]).1
      (by decide),
    (claim7_cli_failures_exit_nonzero (fun _ => none) fsRootOnly
        ["git", "frobnicate"]).2.1 (by decide) (by decide),
    (claim7_cli_failures_exit_nonzero (fun _ => none) fsRootOnly
        ["git", "cat-file"]).2.2.1 rfl (by decide) (by decide),
    (claim7_cli_failures_exit_nonzero (fun _ => none) fsRootOnly
        ["git", "add"]).2.2.2.1 rfl (by decide) (by decide),
    (claim7_cli_failures_exit_nonzero (fun _ => none) fsCwdWithGit
        ["git", "init"]).2.2.2.2 rfl (by decide)
      "Error: .git directory already exists" rfl⟩

/-- C8: stub commands given sufficient arguments print exactly one fixed
placeholder line (echoing their argument where one exists), write nothing to
stderr, exit 0 and leave the filesystem untouched. -/
theorem claim8_stubs_print_only (faults : Nat → Option String) (fs : FS)
    (args : List String) :
    (args.getD 1 "" = "cat-file" → 3 ≤ args.length →
      main faults fs args = ⟨fs, ["Object hash: " ++ args.getD 2 ""], [], 0⟩) ∧
    (args.getD 1 "" = "add" → 3 ≤ args.length →
      main faults fs args = ⟨fs, ["Added file: " ++ args.getD 2 ""], [], 0⟩) ∧
    (args.getD 1 "" = "commit" → 3 ≤ args.length →
      main faults fs args =
        ⟨fs, ["Commit message: " ++ args.getD 2 ""], [], 0⟩) ∧
    (args.getD 1 "" = "commit" → args.length = 2 →
      main faults fs args =
        ⟨fs, ["Commit message: " ++ "Unnamed commit"], [], 0⟩) ∧
    (args.getD 1 "" = "status" → 2 ≤ args.length →
      main faults fs args = ⟨fs, ["Repository status: Clean"], [], 0⟩) := by
  refine ⟨?_, ?_, ?_, ?_, ?_⟩
  · intro hcmd h3
    simp only [List.getD_eq_getElem?_getD] at hcmd
    simp [main, cat_file_cmd, hcmd, show ¬ args.length < 2 by omega,
      show ¬ args.length < 3 by omega]
  · intro hcmd h3
    simp only [List.getD_eq_getElem?_getD] at hcmd
    simp [main, add_cmd, hcmd, show ¬ args.length < 2 by omega,
      show ¬ args.length < 3 by omega]
  · intro hcmd h3
    simp only [List.getD_eq_getElem?_getD] at hcmd
    simp [main, hcmd, show ¬ args.length < 2 by omega,
      show 2 < args.length by omega]
  · intro hcmd h2
    simp only [List.getD_eq_getElem?_getD,
      List.getElem?_eq_getElem (show 1 < args.length by omega),
      Option.getD_some] at hcmd
    simp [main, hcmd, h2]
  · intro hcmd h2
    simp only [List.getD_eq_getElem?_getD] at hcmd
    simp [main, hcmd, show ¬ args.length < 2 by omega]

/-- Witness for C8 across the four stub commands. -/
theorem claim8_witness :
    main (fun _ => none) fsRootOnly ["git", "cat-file", "abc"] =
        ⟨fsRootOnly, ["Object hash: " ++ "abc"], [], 0⟩ ∧
      main (fun _ => none) fsRootOnly ["git", "add", "f.txt"] =
        ⟨fsRootOnly, ["Added file: " ++ "f.txt"], [], 0⟩ ∧
      main (fun _ => none) fsRootOnly ["git", "commit", "msg"] =
        ⟨fsRootOnly, ["Commit message: " ++ "msg"], [], 0⟩ ∧
      main (fun _ => none) fsRootOnly ["git", "commit"] =
        ⟨fsRootOnly, ["Commit message: " ++ "Unnamed commit"], [], 0⟩ ∧
      main (fun _ => none) fsRootOnly ["git", "status"] =
        ⟨fsRootOnly, ["Repository status: Clean"], [], 0⟩ :=
  ⟨(claim8_stubs_print_only (fun _ => none) fsRootOnly
      ["git", "cat-file", "abc"]).1 rfl (by decide),
    (claim8_stubs_print_only (fun _ => none) fsRootOnly
      ["git", "add", "f.txt"]).2.1 rfl (by decide),
    (claim8_stubs_print_only (fun _ => none) fsRootOnly
      ["git", "commit", "msg"]).2.2.1 rfl (by decide),
    (claim8_stubs_print_only (fun _ => none) fsRootOnly
      ["git", "commit"]).2.2.2.1 rfl (by decide),
    (claim8_stubs_print_only (fun _ => none) fsRootOnly
      ["git", "status"]).2.2.2.2 rfl (by decide)⟩

end GitInit
